import Mathlib

/-!
Verification of the `pyvsi_handle` adapter of rasterio
(`src/rasterio/_pyvsi_handle.h`): a `PythonVSIVirtualHandle` wraps a
Python file-like object (`open_file_obj`) and implements the GDAL
`VSIVirtualHandle` operation set on top of it.

The header under `src/` declares the class and gives inline bodies for
`Flush`, `GetNativeFileDescriptor` and `GetRangeStatus`; those three are
embedded directly from the source.  The remaining method bodies live in a
translation unit that is not part of `src/`, so they are modelled from the
specification (each such definition carries a doc comment saying so).

The host runtime (Python object model, reference counting, the file-like
protocol) is an external collaborator; it is embedded as a small explicit
state machine `HostFile` with injectable call failures, so that the
error-translation clauses of the contract can be exercised.
-/

/-- A byte of file content. -/
abbrev Byte := Nat

/-- Seek origin, mirroring SEEK_SET / SEEK_CUR / SEEK_END. -/
inductive Whence
  | fromStart
  | fromCurrent
  | fromEnd
deriving DecidableEq, Repr

/-- Modelled from the spec: the wrapped host file-like object, an external
collaborator ("the host runtime's object model ... treated as an opaque
capability").  `data` and `pos` are the file content and cursor that the
spec says live in the wrapped object; `callIdx` counts host method
invocations; any invocation whose index is listed in `failing` raises a
host-side failure, which sets the pending failure flag `errSet`. -/
structure HostFile where
  data : List Byte
  pos : Nat
  callIdx : Nat
  failing : List Nat
  errSet : Bool
deriving DecidableEq, Repr

/-- Whether the next host method invocation raises. -/
def HostFile.callRaises (f : HostFile) : Bool := f.failing.contains f.callIdx

/-- Consume one host method invocation. -/
def HostFile.tick (f : HostFile) : HostFile := { f with callIdx := f.callIdx + 1 }

/-- A raising host call leaves a pending host-side failure state. -/
def HostFile.setErr (f : HostFile) : HostFile := { f with errSet := true }

/-- Modelled from the spec: clearing/consuming the host-side failure state
("any propagated host-side failure must be cleared/consumed before
returning"). -/
def clearErr (f : HostFile) : HostFile := { f with errSet := false }

/-- Modelled from the spec: the host object's `seek` method.  Resolves the
whence base, fails on a raising invocation or a negative resulting
position, otherwise moves the cursor. -/
def hostSeek (f : HostFile) (off : Int) (w : Whence) : Option Unit × HostFile :=
  if f.callRaises then (none, f.tick.setErr)
  else
    let base : Int :=
      match w with
      | Whence.fromStart => 0
      | Whence.fromCurrent => (f.pos : Int)
      | Whence.fromEnd => (f.data.length : Int)
    let newPos : Int := base + off
    if newPos < 0 then (none, f.tick.setErr)
    else (some (), { f.tick with pos := newPos.toNat })

/-- Modelled from the spec: the host object's `tell` method. -/
def hostTell (f : HostFile) : Option Nat × HostFile :=
  if f.callRaises then (none, f.tick.setErr)
  else (some f.pos, f.tick)

/-- Modelled from the spec: the host object's `read` method.  Requests `n`
bytes; yields the bytes available at the cursor, possibly fewer than
requested (a short read), and advances the cursor past them. -/
def hostRead (f : HostFile) (n : Nat) : Option (List Byte) × HostFile :=
  if f.callRaises then (none, f.tick.setErr)
  else
    let bytes := (f.data.drop f.pos).take n
    (some bytes, { f.tick with pos := f.pos + bytes.length })

/-- Modelled from the spec: the host object's `write` method.  Writes the
bytes at the cursor (zero-padding any gap past the end), advances the
cursor, and reports the number of bytes written. -/
def hostWrite (f : HostFile) (bytes : List Byte) : Option Nat × HostFile :=
  if f.callRaises then (none, f.tick.setErr)
  else
    let pre := f.data.take f.pos ++ List.replicate (f.pos - f.data.length) 0
    (some bytes.length,
     { f.tick with
         data := pre ++ bytes ++ f.data.drop (f.pos + bytes.length),
         pos := f.pos + bytes.length })

/-- Modelled from the spec: the host object's `close` method. -/
def hostClose (f : HostFile) : Option Unit × HostFile :=
  if f.callRaises then (none, f.tick.setErr)
  else (some (), f.tick)

/-! ### Adapter operations over the host state

These are the bodies of the `PythonVSIVirtualHandle` methods, threaded
through the wrapped object's state.  Their implementations are not under
`src/` (the header only declares them), so each is modelled from the
spec's per-operation contract. -/

/-- Modelled from the spec: `Seek(offset, whence)` — invokes the host
object's seek; returns 0 on success, -1 when the host call raises, and
clears any propagated host-side failure state before returning. -/
def vsiSeek (f : HostFile) (off : Int) (w : Whence) : Int × HostFile :=
  match hostSeek f off w with
  | (some _, f2) => (0, f2)
  | (none, f2) => (-1, clearErr f2)

/-- Modelled from the spec: `Tell()` — invokes the host object's tell;
on a host failure the contract degrades to returning 0, with the failure
state cleared. -/
def vsiTell (f : HostFile) : Nat × HostFile :=
  match hostTell f with
  | (some p, f2) => (p, f2)
  | (none, f2) => (0, clearErr f2)

/-- Modelled from the spec: the byte-level body of `Read` — requests
`size * count` bytes from the host object's read and yields the bytes
actually copied into the caller's buffer; an empty request does not invoke
the host object; a host failure yields no bytes, with the failure state
cleared. -/
def vsiReadBytes (f : HostFile) (size count : Nat) : List Byte × HostFile :=
  if size = 0 || count = 0 then ([], f)
  else
    match hostRead f (size * count) with
    | (some bytes, f2) => (bytes, f2)
    | (none, f2) => ([], clearErr f2)

/-- Modelled from the spec: `Read(buffer, elementSize, elementCount)` —
returns `bytesReturned / elementSize` whole elements; a short read is
signalled by a smaller count, not an error; a host failure returns 0. -/
def vsiRead (f : HostFile) (size count : Nat) : Nat × HostFile :=
  let r := vsiReadBytes f size count
  (r.1.length / size, r.2)

/-- Modelled from the spec: `Write(buffer, elementSize, elementCount)` —
mirrors `Read`: writes `elementSize * elementCount` bytes from the buffer
through the host object's write, returns `bytesWritten / elementSize`,
0 on a propagated host failure, and an empty request does not invoke the
host object. -/
def vsiWrite (f : HostFile) (buf : List Byte) (size count : Nat) : Nat × HostFile :=
  if size = 0 || count = 0 then (0, f)
  else
    match hostWrite f (buf.take (size * count)) with
    | (some n, f2) => (n / size, f2)
    | (none, f2) => (0, clearErr f2)

/-- Modelled from the spec: `Eof()` — save the current position via Tell,
Seek to the end, compare the saved position against the new Tell, then
Seek back to the saved position (also when the end-probe seek failed);
returns nonzero exactly when the saved position equals the end
position. -/
def vsiEof (f : HostFile) : Int × HostFile :=
  let t := vsiTell f
  let cur := t.1
  let s := vsiSeek t.2 0 Whence.fromEnd
  if s.1 = 0 then
    let t2 := vsiTell s.2
    let b := vsiSeek t2.2 (Int.ofNat cur) Whence.fromStart
    (if cur = t2.1 then 1 else 0, b.2)
  else
    let b := vsiSeek s.2 (Int.ofNat cur) Whence.fromStart
    (0, b.2)

/-- Modelled from the spec: `ReadMultiRange` — sequential fallback: for
each range in order, Seek to its offset then Read its size in bytes into
its buffer; stop and return failure (-1) at the first sub-read that does
not fully satisfy its requested size; return 0 when every range was fully
satisfied.  The returned list holds the bytes applied to each buffer that
was written. -/
def vsiReadMultiRange : HostFile → List (Nat × Nat) → Int × List (List Byte) × HostFile
  | f, [] => (0, [], f)
  | f, (off, sz) :: rest =>
    let s := vsiSeek f (Int.ofNat off) Whence.fromStart
    let rb := vsiReadBytes s.2 1 sz
    if rb.1.length = sz then
      let r := vsiReadMultiRange rb.2 rest
      (r.1, rb.1 :: r.2.1, r.2.2)
    else
      (-1, [rb.1], rb.2)

/-- Modelled from the spec: `Close()` — invokes the host object's close;
returns 0 on success, -1 when the host call raised, clearing the failure
state. -/
def vsiClose (f : HostFile) : Int × HostFile :=
  match hostClose f with
  | (some _, f2) => (0, f2)
  | (none, f2) => (-1, clearErr f2)

/-! ### The handle -/

/-- Modelled from the spec: the wrapped host object reference — the host
runtime's reference count paired with the object's file state. -/
structure PyObj where
  refCount : Nat
  file : HostFile
deriving DecidableEq, Repr

/-- The adapter class of `_pyvsi_handle.h`: its one data member is
`PyObject *open_file_obj`, a nullable reference to the wrapped host
object (`none` embeds `nullptr`). -/
structure PythonVSIVirtualHandle where
  open_file_obj : Option PyObj
deriving DecidableEq, Repr

namespace PythonVSIVirtualHandle

/-- Modelled from the spec: the constructor — increments the host
object's reference count and stores the reference; fails (and constructs
nothing) exactly when the supplied reference is null. -/
def create (obj : Option PyObj) : Option PythonVSIVirtualHandle :=
  match obj with
  | none => none
  | some o => some ⟨some { o with refCount := o.refCount + 1 }⟩

/-- Modelled from the spec: the destructor — releases the owning
reference exactly once, yielding the wrapped object with its reference
count decremented. -/
def destroy (h : PythonVSIVirtualHandle) : Option PyObj :=
  h.open_file_obj.map (fun o => { o with refCount := o.refCount - 1 })

/-- Modelled from the spec: `Seek`, lifted to the handle. -/
def Seek (h : PythonVSIVirtualHandle) (off : Int) (w : Whence) :
    Int × PythonVSIVirtualHandle :=
  match h.open_file_obj with
  | none => (-1, h)
  | some o =>
    let r := vsiSeek o.file off w
    (r.1, ⟨some { o with file := r.2 }⟩)

/-- Modelled from the spec: `Tell`, lifted to the handle. -/
def Tell (h : PythonVSIVirtualHandle) : Nat × PythonVSIVirtualHandle :=
  match h.open_file_obj with
  | none => (0, h)
  | some o =>
    let r := vsiTell o.file
    (r.1, ⟨some { o with file := r.2 }⟩)

/-- Modelled from the spec: `Read`, lifted to the handle; returns the
element count. -/
def Read (h : PythonVSIVirtualHandle) (size count : Nat) :
    Nat × PythonVSIVirtualHandle :=
  match h.open_file_obj with
  | none => (0, h)
  | some o =>
    let r := vsiRead o.file size count
    (r.1, ⟨some { o with file := r.2 }⟩)

/-- Modelled from the spec: `Write`, lifted to the handle. -/
def Write (h : PythonVSIVirtualHandle) (buf : List Byte) (size count : Nat) :
    Nat × PythonVSIVirtualHandle :=
  match h.open_file_obj with
  | none => (0, h)
  | some o =>
    let r := vsiWrite o.file buf size count
    (r.1, ⟨some { o with file := r.2 }⟩)

/-- Modelled from the spec: `Eof`, lifted to the handle. -/
def Eof (h : PythonVSIVirtualHandle) : Int × PythonVSIVirtualHandle :=
  match h.open_file_obj with
  | none => (0, h)
  | some o =>
    let r := vsiEof o.file
    (r.1, ⟨some { o with file := r.2 }⟩)

/-- Modelled from the spec: `ReadMultiRange`, lifted to the handle.
Ranges are (offset, size) pairs; the middle component lists the bytes
applied to each buffer that was written. -/
def ReadMultiRange (h : PythonVSIVirtualHandle) (ranges : List (Nat × Nat)) :
    Int × List (List Byte) × PythonVSIVirtualHandle :=
  match h.open_file_obj with
  | none => (-1, [], h)
  | some o =>
    let r := vsiReadMultiRange o.file ranges
    (r.1, r.2.1, ⟨some { o with file := r.2.2 }⟩)

/-- Modelled from the spec: `Close`, lifted to the handle. -/
def Close (h : PythonVSIVirtualHandle) : Int × PythonVSIVirtualHandle :=
  match h.open_file_obj with
  | none => (-1, h)
  | some o =>
    let r := vsiClose o.file
    (r.1, ⟨some { o with file := r.2 }⟩)

/-- From the source (`_pyvsi_handle.h` line 21): `int Flush() {return 0;}`
— touches no member. -/
def Flush (h : PythonVSIVirtualHandle) : Int × PythonVSIVirtualHandle :=
  (0, h)

/-- From the source (`_pyvsi_handle.h` line 25):
`void *GetNativeFileDescriptor() { return nullptr; }` — `none` embeds the
null pointer; touches no member. -/
def GetNativeFileDescriptor (h : PythonVSIVirtualHandle) :
    Option Nat × PythonVSIVirtualHandle :=
  (none, h)

end PythonVSIVirtualHandle

/-- GDAL's `VSIRangeStatus` enumeration. -/
inductive VSIRangeStatus
  | VSI_RANGE_STATUS_UNKNOWN
  | VSI_RANGE_STATUS_DATA
  | VSI_RANGE_STATUS_HOLE
deriving DecidableEq, Repr

/-- From the source (`_pyvsi_handle.h` lines 26-28): `GetRangeStatus`
ignores both arguments and returns `VSI_RANGE_STATUS_UNKNOWN`; touches no
member. -/
def PythonVSIVirtualHandle.GetRangeStatus (h : PythonVSIVirtualHandle)
    (nOffset nLength : Nat) : VSIRangeStatus × PythonVSIVirtualHandle :=
  (VSIRangeStatus.VSI_RANGE_STATUS_UNKNOWN, h)

/-! ### Operation sequences (for the lifetime claims) -/

/-- One virtual-handle operation, used to quantify over the handle's
lifetime between construction and destruction. -/
inductive VOp
  | seek (off : Int) (w : Whence)
  | tell
  | read (size count : Nat)
  | write (buf : List Byte) (size count : Nat)
  | eof
  | flush
  | readMulti (ranges : List (Nat × Nat))
  | close
deriving Repr

/-- Apply one operation to a handle, discarding its return value. -/
def applyOp (h : PythonVSIVirtualHandle) : VOp → PythonVSIVirtualHandle
  | VOp.seek off w => (h.Seek off w).2
  | VOp.tell => h.Tell.2
  | VOp.read size count => (h.Read size count).2
  | VOp.write buf size count => (h.Write buf size count).2
  | VOp.eof => h.Eof.2
  | VOp.flush => h.Flush.2
  | VOp.readMulti ranges => (h.ReadMultiRange ranges).2.2
  | VOp.close => h.Close.2

/-- Apply a sequence of operations in order. -/
def applyOps (h : PythonVSIVirtualHandle) : List VOp → PythonVSIVirtualHandle
  | [] => h
  | op :: rest => applyOps (applyOp h op) rest

/-! ### The factory -/

/-- The native virtual filesystem's in-memory space, an external
collaborator: registered synthetic paths, plus flags injecting failure of
its two consumed capabilities (registration and path open). -/
structure VSIFileSystem where
  files : List (String × PythonVSIVirtualHandle)
  registerFails : Bool
  openFails : Bool

/-- Modelled from the spec: the registry's "install a handle at a
synthetic path" capability. -/
def vsiRegisterInMem (fs : VSIFileSystem) (name : String)
    (handle : PythonVSIVirtualHandle) : Option VSIFileSystem :=
  if fs.registerFails then none
  else some { fs with files := (name, handle) :: fs.files }

/-- The generic native file pointer returned by the path-open API. -/
abbrev VSILFILE := PythonVSIVirtualHandle

/-- Modelled from the spec: the registry's "open path, returning generic
file pointer" capability. -/
def vsiFOpenL (fs : VSIFileSystem) (name : String) : Option VSILFILE :=
  if fs.openFails then none
  else fs.files.lookup name

/-- Modelled from the spec: `CreatePyVSIInMem(name, handle)` — registers
`handle` under the synthetic path `name` in the in-memory space, then
reopens that path through the native open API; a null result (`none`)
arises exactly from a failure of one of the two steps. -/
def CreatePyVSIInMem (fs : VSIFileSystem) (name : String)
    (handle : PythonVSIVirtualHandle) : Option VSILFILE :=
  match vsiRegisterInMem fs name handle with
  | none => none
  | some fs2 => vsiFOpenL fs2 name

/-! ## Claims -/

/-- C9: For every constructed handle, `GetNativeFileDescriptor()` returns
the "not available" value (a null handle), and for every offset and
length, `GetRangeStatus(offset, length)` returns the "unknown" status;
neither result depends on the handle's state or the arguments (both are
the same constant for every handle and argument pair). -/
theorem claim_C9 (h : PythonVSIVirtualHandle) (nOffset nLength : Nat) :
    h.GetNativeFileDescriptor.1 = none ∧
    (h.GetRangeStatus nOffset nLength).1 = VSIRangeStatus.VSI_RANGE_STATUS_UNKNOWN :=
  ⟨rfl, rfl⟩

/-- C10: For every handle, including one whose wrapped object pointer is
null, `Flush`, `GetNativeFileDescriptor` and `GetRangeStatus` never read
or invoke the wrapped host object and leave every field of the handle
unchanged, returning the constants 0, null and the "unknown" range status
respectively; two calls to any of them on any two handles with any
arguments return the same value. -/
theorem claim_C10 (h1 h2 : PythonVSIVirtualHandle) (o1 l1 o2 l2 : Nat) :
    h1.Flush = (0, h1) ∧
    h1.GetNativeFileDescriptor = (none, h1) ∧
    h1.GetRangeStatus o1 l1 = (VSIRangeStatus.VSI_RANGE_STATUS_UNKNOWN, h1) ∧
    h1.Flush.1 = h2.Flush.1 ∧
    h1.GetNativeFileDescriptor.1 = h2.GetNativeFileDescriptor.1 ∧
    (h1.GetRangeStatus o1 l1).1 = (h2.GetRangeStatus o2 l2).1 :=
  ⟨rfl, rfl, rfl, rfl, rfl, rfl⟩

/-- C4: For every handle, a call to `Read` or `Write` with
`elementCount = 0` or `elementSize = 0` returns 0 and leaves the handle
(in particular the host-call counter of the wrapped object) unchanged, so
no method of the wrapped host object is invoked. -/
theorem claim_C4 (h : PythonVSIVirtualHandle) (buf : List Byte) (size count : Nat)
    (hz : size = 0 ∨ count = 0) :
    h.Read size count = (0, h) ∧ h.Write buf size count = (0, h) := by
  rcases h with ⟨_ | o⟩ <;>
    rcases hz with hz | hz <;> subst hz <;>
      simp [PythonVSIVirtualHandle.Read, PythonVSIVirtualHandle.Write, vsiRead,
        vsiReadBytes, vsiWrite]

/-- Witness for C4 at `elementSize = 0`, `elementCount = 5`. -/
theorem claim_C4_witness :
    PythonVSIVirtualHandle.Read ⟨some ⟨1, ⟨[1, 2, 3], 0, 0, [], false⟩⟩⟩ 0 5 =
      (0, ⟨some ⟨1, ⟨[1, 2, 3], 0, 0, [], false⟩⟩⟩) ∧
    PythonVSIVirtualHandle.Write ⟨some ⟨1, ⟨[1, 2, 3], 0, 0, [], false⟩⟩⟩ [7] 0 5 =
      (0, ⟨some ⟨1, ⟨[1, 2, 3], 0, 0, [], false⟩⟩⟩) :=
  claim_C4 ⟨some ⟨1, ⟨[1, 2, 3], 0, 0, [], false⟩⟩⟩ [7] 0 5 (Or.inl rfl)

/-- C6: Constructing a `PythonVSIVirtualHandle` from a host object
reference increments that object's reference count and stores it;
construction fails (returns nothing, without crashing) exactly when the
supplied reference is null, so the wrapped object of every live
(constructed) handle is non-null. -/
theorem claim_C6 (obj : Option PyObj) (o : PyObj) (h : PythonVSIVirtualHandle)
    (hc : PythonVSIVirtualHandle.create obj = some h) :
    PythonVSIVirtualHandle.create none = none ∧
    PythonVSIVirtualHandle.create (some o) =
      some ⟨some { o with refCount := o.refCount + 1 }⟩ ∧
    h.open_file_obj.isSome := by
  refine ⟨rfl, rfl, ?_⟩
  rcases obj with _ | o2
  · exact absurd hc (by simp [PythonVSIVirtualHandle.create])
  · have : h = ⟨some { o2 with refCount := o2.refCount + 1 }⟩ := by
      simpa [PythonVSIVirtualHandle.create] using hc.symm
    subst this
    rfl

/-- Witness for C6 at a host object of reference count 2. -/
theorem claim_C6_witness :
    PythonVSIVirtualHandle.create none = none ∧
    PythonVSIVirtualHandle.create (some ⟨2, ⟨[5], 0, 0, [], false⟩⟩) =
      some ⟨some ⟨3, ⟨[5], 0, 0, [], false⟩⟩⟩ ∧
    (⟨some ⟨3, ⟨[5], 0, 0, [], false⟩⟩⟩ : PythonVSIVirtualHandle).open_file_obj.isSome :=
  claim_C6 (some ⟨2, ⟨[5], 0, 0, [], false⟩⟩) ⟨2, ⟨[5], 0, 0, [], false⟩⟩
    ⟨some ⟨3, ⟨[5], 0, 0, [], false⟩⟩⟩ rfl

/-- C8: `CreatePyVSIInMem(name, handle)` registers the handle under the
synthetic path in the in-memory space and reopens that path through the
native open API, returning the resulting file pointer; the result is null
exactly when the registration step or the reopen step fails, and
otherwise it is the registered handle itself. -/
theorem claim_C8 (fs : VSIFileSystem) (name : String)
    (handle : PythonVSIVirtualHandle) :
    CreatePyVSIInMem fs name handle =
      (if fs.registerFails || fs.openFails then none else some handle) ∧
    (CreatePyVSIInMem fs name handle = none ↔
      (fs.registerFails = true ∨ fs.openFails = true)) := by
  constructor
  · unfold CreatePyVSIInMem vsiRegisterInMem vsiFOpenL
    by_cases h1 : fs.registerFails <;> by_cases h2 : fs.openFails <;>
      simp [h1, h2, List.lookup]
  · unfold CreatePyVSIInMem vsiRegisterInMem vsiFOpenL
    by_cases h1 : fs.registerFails <;> by_cases h2 : fs.openFails <;>
      simp [h1, h2, List.lookup]

/-- C3: For every constructed handle, `Read(buffer, elementSize,
elementCount)` with a nonempty request requests
`elementSize * elementCount` bytes from the host object's read method and
returns `bytesReturned / elementSize` whole elements — when the host
yields fewer bytes than requested (here: the bytes available at the
cursor), the smaller count is returned, and the host-side failure flag is
not raised; when the host read raises a failure the call returns 0. -/
theorem claim_C3 (h : PythonVSIVirtualHandle) (o : PyObj) (size count : Nat)
    (hh : h.open_file_obj = some o) (hs : 0 < size) (hc : 0 < count) :
    (o.file.callRaises = false →
      (h.Read size count).1 =
        ((o.file.data.drop o.file.pos).take (size * count)).length / size ∧
      ∃ o2, (h.Read size count).2.open_file_obj = some o2 ∧
        o2.file.errSet = o.file.errSet) ∧
    (o.file.callRaises = true → (h.Read size count).1 = 0) := by
  rcases h with ⟨obj⟩
  cases hh
  constructor
  · intro hraise
    constructor
    · simp [PythonVSIVirtualHandle.Read, vsiRead, vsiReadBytes, hostRead, hraise,
        Nat.pos_iff_ne_zero.mp hs, Nat.pos_iff_ne_zero.mp hc]
    · refine ⟨_, rfl, ?_⟩
      simp [PythonVSIVirtualHandle.Read, vsiRead, vsiReadBytes, hostRead, hraise,
        Nat.pos_iff_ne_zero.mp hs, Nat.pos_iff_ne_zero.mp hc, HostFile.tick]
  · intro hraise
    simp [PythonVSIVirtualHandle.Read, vsiRead, vsiReadBytes, hostRead, hraise,
      Nat.pos_iff_ne_zero.mp hs, Nat.pos_iff_ne_zero.mp hc]

/-- Witness for C3: a file of 5 bytes, an error-free host, and a request
of 4 elements of size 2 (8 bytes); only 5 bytes are available, so 2 whole
elements are returned. -/
theorem claim_C3_witness :
    ((⟨[1, 2, 3, 4, 5], 0, 0, [], false⟩ : HostFile).callRaises = false →
      (PythonVSIVirtualHandle.Read ⟨some ⟨1, ⟨[1, 2, 3, 4, 5], 0, 0, [], false⟩⟩⟩ 2 4).1 =
        ((([1, 2, 3, 4, 5] : List Byte).drop 0).take (2 * 4)).length / 2 ∧
      ∃ o2, (PythonVSIVirtualHandle.Read
          ⟨some ⟨1, ⟨[1, 2, 3, 4, 5], 0, 0, [], false⟩⟩⟩ 2 4).2.open_file_obj = some o2 ∧
        o2.file.errSet = (⟨[1, 2, 3, 4, 5], 0, 0, [], false⟩ : HostFile).errSet) ∧
    ((⟨[1, 2, 3, 4, 5], 0, 0, [], false⟩ : HostFile).callRaises = true →
      (PythonVSIVirtualHandle.Read ⟨some ⟨1, ⟨[1, 2, 3, 4, 5], 0, 0, [], false⟩⟩⟩ 2 4).1 = 0) :=
  claim_C3 ⟨some ⟨1, ⟨[1, 2, 3, 4, 5], 0, 0, [], false⟩⟩⟩ ⟨1, ⟨[1, 2, 3, 4, 5], 0, 0, [], false⟩⟩
    2 4 rfl (by decide) (by decide)

/-- C5: For every constructed handle, `Seek(offset, whence)` returns 0
when the host object's seek call succeeds and -1 when it raises an
error; on the failure path the host-side failure state is
cleared/consumed before returning, and a handle whose host had no pending
failure state never ends up with one after `Seek`. -/
theorem claim_C5 (h : PythonVSIVirtualHandle) (o : PyObj) (off : Int) (w : Whence)
    (hh : h.open_file_obj = some o) :
    ((h.Seek off w).1 = 0 ∨ (h.Seek off w).1 = -1) ∧
    ((h.Seek off w).1 = 0 ↔ (hostSeek o.file off w).1 = some ()) ∧
    (∃ o2, (h.Seek off w).2.open_file_obj = some o2 ∧
      ((h.Seek off w).1 = -1 → o2.file.errSet = false) ∧
      (o.file.errSet = false → o2.file.errSet = false)) := by
  rcases h with ⟨obj⟩
  cases hh
  have hmain : ((vsiSeek o.file off w).1 = 0 ∨ (vsiSeek o.file off w).1 = -1) ∧
      ((vsiSeek o.file off w).1 = 0 ↔ (hostSeek o.file off w).1 = some ()) ∧
      ((vsiSeek o.file off w).1 = -1 → (vsiSeek o.file off w).2.errSet = false) ∧
      (o.file.errSet = false → (vsiSeek o.file off w).2.errSet = false) := by
    unfold vsiSeek hostSeek
    by_cases hr : o.file.callRaises
    · simp [hr, clearErr, HostFile.tick, HostFile.setErr]
    · cases w <;>
        simp only [hr, Bool.false_eq_true, if_false, if_true] <;>
        split_ifs <;>
        simp_all [clearErr, HostFile.tick, HostFile.setErr]
  refine ⟨?_, ?_, ⟨_, rfl, ?_, ?_⟩⟩
  · exact hmain.1
  · exact hmain.2.1
  · intro hfail
    exact hmain.2.2.1 hfail
  · intro herr
    exact hmain.2.2.2 herr

/-- Witness for C5: an injected host failure on the first call makes Seek
return -1 with the failure state cleared. -/
theorem claim_C5_witness :
    ((PythonVSIVirtualHandle.Seek ⟨some ⟨1, ⟨[9], 0, 0, [0], true⟩⟩⟩ 3 Whence.fromStart).1 = 0 ∨
     (PythonVSIVirtualHandle.Seek ⟨some ⟨1, ⟨[9], 0, 0, [0], true⟩⟩⟩ 3 Whence.fromStart).1 = -1) ∧
    ((PythonVSIVirtualHandle.Seek ⟨some ⟨1, ⟨[9], 0, 0, [0], true⟩⟩⟩ 3 Whence.fromStart).1 = 0 ↔
      (hostSeek ⟨[9], 0, 0, [0], true⟩ 3 Whence.fromStart).1 = some ()) ∧
    (∃ o2, (PythonVSIVirtualHandle.Seek
        ⟨some ⟨1, ⟨[9], 0, 0, [0], true⟩⟩⟩ 3 Whence.fromStart).2.open_file_obj = some o2 ∧
      ((PythonVSIVirtualHandle.Seek ⟨some ⟨1, ⟨[9], 0, 0, [0], true⟩⟩⟩ 3 Whence.fromStart).1 = -1 →
        o2.file.errSet = false) ∧
      ((⟨[9], 0, 0, [0], true⟩ : HostFile).errSet = false → o2.file.errSet = false)) :=
  claim_C5 ⟨some ⟨1, ⟨[9], 0, 0, [0], true⟩⟩⟩ ⟨1, ⟨[9], 0, 0, [0], true⟩⟩ 3 Whence.fromStart rfl

/-- Every virtual-handle operation only updates the wrapped object's file
state: the reference stays non-null and the reference count is
untouched. -/
theorem applyOp_obj (o : PyObj) (op : VOp) :
    ∃ f2, (applyOp ⟨some o⟩ op).open_file_obj = some { o with file := f2 } := by
  cases op <;> exact ⟨_, rfl⟩

/-- Operation sequences only update the wrapped object's file state. -/
theorem applyOps_obj (ops : List VOp) (o : PyObj) :
    ∃ f2, (applyOps ⟨some o⟩ ops).open_file_obj = some { o with file := f2 } := by
  induction ops generalizing o with
  | nil => exact ⟨o.file, rfl⟩
  | cons op rest ih =>
    obtain ⟨f2, hf⟩ := applyOp_obj o op
    rcases happ : applyOp ⟨some o⟩ op with ⟨obj2⟩
    rw [happ] at hf
    simp only at hf
    subst hf
    obtain ⟨f3, hf3⟩ := ih { o with file := f2 }
    exact ⟨f3, by simpa [applyOps, happ] using hf3⟩

/-- C7: For every handle constructed from a valid non-null host object,
after any sequence of operations (successful or failing), destruction
releases the wrapped object's owning reference exactly once: the final
reference count equals the one the object had before construction — no
leak and no double-release. -/
theorem claim_C7 (o : PyObj) (h : PythonVSIVirtualHandle) (ops : List VOp)
    (hc : PythonVSIVirtualHandle.create (some o) = some h) :
    ∃ o2, (applyOps h ops).destroy = some o2 ∧ o2.refCount = o.refCount := by
  have hh : h = ⟨some { o with refCount := o.refCount + 1 }⟩ := by
    simpa [PythonVSIVirtualHandle.create] using hc.symm
  subst hh
  obtain ⟨f2, hf⟩ := applyOps_obj ops { o with refCount := o.refCount + 1 }
  refine ⟨⟨o.refCount, f2⟩, ?_, rfl⟩
  simp [PythonVSIVirtualHandle.destroy, hf]

/-- Witness for C7: a host object of reference count 5 with injected
failures on its first and third host calls, driven through a seek, a
read, an end-of-file probe and a close before destruction. -/
theorem claim_C7_witness :
    ∃ o2, (applyOps ⟨some ⟨6, ⟨[1, 2, 3], 0, 0, [0, 2], false⟩⟩⟩
        [VOp.seek 1 Whence.fromStart, VOp.read 1 2, VOp.eof, VOp.close]).destroy = some o2 ∧
      o2.refCount = 5 :=
  claim_C7 ⟨5, ⟨[1, 2, 3], 0, 0, [0, 2], false⟩⟩ ⟨some ⟨6, ⟨[1, 2, 3], 0, 0, [0, 2], false⟩⟩⟩
    [VOp.seek 1 Whence.fromStart, VOp.read 1 2, VOp.eof, VOp.close] rfl

/-- `Eof` restores the cursor whenever the initial tell and the restoring
seek succeed, regardless of end-probe failures; and when the whole probe
succeeds, its value is the end-of-file comparison at the saved cursor. -/
theorem vsiEof_spec (f : HostFile)
    (htell : f.callIdx ∉ f.failing)
    (hback1 : f.callIdx + 1 ∈ f.failing → f.callIdx + 2 ∉ f.failing)
    (hback2 : f.callIdx + 1 ∉ f.failing → f.callIdx + 3 ∉ f.failing) :
    (vsiEof f).2.pos = f.pos ∧
    (f.callIdx + 1 ∉ f.failing → f.callIdx + 2 ∉ f.failing →
     (vsiEof f).1 = if f.pos = f.data.length then 1 else 0) := by
  have hnn1 : ¬((f.data.length : Int) < 0) := by omega
  have hnn2 : ¬((f.pos : Int) < 0) := by omega
  by_cases h1 : f.callIdx + 1 ∈ f.failing
  · have h2 := hback1 h1
    refine ⟨?_, ?_⟩
    · simp [vsiEof, vsiTell, vsiSeek, hostTell, hostSeek, HostFile.callRaises,
        HostFile.tick, HostFile.setErr, clearErr, htell, h1, h2, hnn1, hnn2]
    · intro h1' _
      exact absurd h1 h1'
  · have h3 := hback2 h1
    by_cases h2 : f.callIdx + 2 ∈ f.failing
    · refine ⟨?_, ?_⟩
      · simp [vsiEof, vsiTell, vsiSeek, hostTell, hostSeek, HostFile.callRaises,
          HostFile.tick, HostFile.setErr, clearErr, htell, h1, h2, h3, hnn1, hnn2]
      · intro _ h2'
        exact absurd h2 h2'
    · refine ⟨?_, ?_⟩ <;>
        simp [vsiEof, vsiTell, vsiSeek, hostTell, hostSeek, HostFile.callRaises,
          HostFile.tick, HostFile.setErr, clearErr, htell, h1, h2, h3, hnn1, hnn2]

/-- A one-byte-element sub-read never yields more than the requested
size. -/
theorem vsiReadBytes_one_le (f : HostFile) (sz : Nat) :
    (vsiReadBytes f 1 sz).1.length ≤ sz := by
  unfold vsiReadBytes hostRead
  by_cases h0 : sz = 0
  · simp [h0]
  · by_cases hr : f.callRaises
    · simp [h0, hr]
    · simp only [h0, hr, one_mul, Bool.false_eq_true, if_false]
      simp [List.length_take]

/-- `ReadMultiRange` returns either success (0) or failure (-1). -/
theorem vsiReadMultiRange_code (f : HostFile) (ranges : List (Nat × Nat)) :
    (vsiReadMultiRange f ranges).1 = 0 ∨ (vsiReadMultiRange f ranges).1 = -1 := by
  induction ranges generalizing f with
  | nil => exact Or.inl rfl
  | cons head rest ih =>
    rcases head with ⟨off, sz⟩
    simp only [vsiReadMultiRange]
    split
    · exact ih _
    · exact Or.inr rfl

/-- `ReadMultiRange` succeeds exactly when every range's buffer was
filled with its full requested size. -/
theorem vsiReadMultiRange_zero_iff (f : HostFile) (ranges : List (Nat × Nat)) :
    ((vsiReadMultiRange f ranges).1 = 0 ↔
      (vsiReadMultiRange f ranges).2.1.length = ranges.length ∧
      ∀ (i : Nat) (b : List Byte) (rg : Nat × Nat), (vsiReadMultiRange f ranges).2.1[i]? = some b →
        ranges[i]? = some rg → b.length = rg.2) := by
  induction ranges generalizing f with
  | nil => simp [vsiReadMultiRange]
  | cons head rest ih =>
    rcases head with ⟨off, sz⟩
    simp only [vsiReadMultiRange]
    split
    case isTrue hfull =>
      constructor
      · intro h0
        obtain ⟨hlen, hall⟩ := (ih _).1 h0
        refine ⟨by simpa using hlen, ?_⟩
        intro i b rg hb hr
        cases i with
        | zero =>
          simp only [List.getElem?_cons_zero, Option.some_inj] at hb hr
          subst hb; subst hr
          exact hfull
        | succ i =>
          exact hall i b rg (by simpa using hb) (by simpa using hr)
      · rintro ⟨hlen, hall⟩
        refine (ih _).2 ⟨by simpa using hlen, ?_⟩
        intro i b rg hb hr
        exact hall (i + 1) b rg (by simpa using hb) (by simpa using hr)
    case isFalse hshort =>
      constructor
      · intro h0
        simp at h0
      · rintro ⟨hlen, hall⟩
        exact absurd (hall 0 (vsiReadBytes (vsiSeek f (Int.ofNat off) Whence.fromStart).2 1 sz).1
          (off, sz) (by simp) (by simp)) hshort

/-- On failure, `ReadMultiRange` stops at the first short sub-read: some
prefix of `j` ranges was fully applied, and the buffer of range `j`
received fewer bytes than requested. -/
theorem vsiReadMultiRange_fail (f : HostFile) (ranges : List (Nat × Nat)) :
    (vsiReadMultiRange f ranges).1 = -1 →
    ∃ j, (vsiReadMultiRange f ranges).2.1.length = j + 1 ∧ j < ranges.length ∧
      (∀ (i : Nat) (b : List Byte) (rg : Nat × Nat), i < j → (vsiReadMultiRange f ranges).2.1[i]? = some b →
        ranges[i]? = some rg → b.length = rg.2) ∧
      ∃ (b : List Byte) (rg : Nat × Nat), (vsiReadMultiRange f ranges).2.1[j]? = some b ∧
        ranges[j]? = some rg ∧ b.length < rg.2 := by
  induction ranges generalizing f with
  | nil =>
    intro hfail
    simp [vsiReadMultiRange] at hfail
  | cons head rest ih =>
    rcases head with ⟨off, sz⟩
    simp only [vsiReadMultiRange]
    split
    case isTrue hfull =>
      intro hfail
      obtain ⟨j, hj1, hj2, hj3, b, rg, hb, hr, hlt⟩ := ih _ hfail
      refine ⟨j + 1, by simpa using hj1, by simp only [List.length_cons]; omega, ?_,
        b, rg, by simpa using hb, by simpa using hr, hlt⟩
      intro i b2 rg2 hi hb2 hr2
      cases i with
      | zero =>
        simp only [List.getElem?_cons_zero, Option.some_inj] at hb2 hr2
        subst hb2; subst hr2
        exact hfull
      | succ i =>
        exact hj3 i b2 rg2 (by omega) (by simpa using hb2) (by simpa using hr2)
    case isFalse hshort =>
      intro _
      refine ⟨0, rfl, by simp only [List.length_cons]; omega,
        fun i b rg hi _ _ => absurd hi (by omega), _, (off, sz), by simp, by simp,
        lt_of_le_of_ne (vsiReadBytes_one_le _ _) hshort⟩

/-- On a failure-free host, one Seek-to-offset/Read-size step of the
sequential fallback reads exactly the slice of the file at that offset,
and preserves the file content and the (empty) failure injection. -/
theorem vsiSeekReadStep (f : HostFile) (off sz : Nat) (hf : f.failing = []) :
    (vsiReadBytes (vsiSeek f (Int.ofNat off) Whence.fromStart).2 1 sz).1 =
      (f.data.drop off).take sz ∧
    (vsiReadBytes (vsiSeek f (Int.ofNat off) Whence.fromStart).2 1 sz).2.data = f.data ∧
    (vsiReadBytes (vsiSeek f (Int.ofNat off) Whence.fromStart).2 1 sz).2.failing = [] := by
  have hnn : ¬((off : Int) < 0) := by omega
  by_cases h0 : sz = 0
  · subst h0
    simp [vsiSeek, vsiReadBytes, hostSeek, HostFile.callRaises, hf, HostFile.tick, hnn]
  · simp [vsiSeek, vsiReadBytes, hostSeek, hostRead, HostFile.callRaises, hf,
      HostFile.tick, hnn, h0]

/-- On a failure-free host, every buffer written by `ReadMultiRange`
holds exactly the bytes of the file at its range's offset, up to its
range's size: each range was applied by a Seek to its offset followed by
a Read of its size. -/
theorem vsiReadMultiRange_content (f : HostFile) (ranges : List (Nat × Nat))
    (hf : f.failing = []) :
    ∀ (i : Nat) (b : List Byte) (rg : Nat × Nat),
      (vsiReadMultiRange f ranges).2.1[i]? = some b →
      ranges[i]? = some rg → b = (f.data.drop rg.1).take rg.2 := by
  induction ranges generalizing f with
  | nil =>
    intro i b rg hb hr
    simp [vsiReadMultiRange] at hb
  | cons head rest ih =>
    rcases head with ⟨off, sz⟩
    obtain ⟨hbytes, hdata, hfail⟩ := vsiSeekReadStep f off sz hf
    intro i b rg hb hr
    rw [show vsiReadMultiRange f ((off, sz) :: rest) =
        (let s := vsiSeek f (Int.ofNat off) Whence.fromStart
         let rb := vsiReadBytes s.2 1 sz
         if rb.1.length = sz then
           let r := vsiReadMultiRange rb.2 rest
           (r.1, rb.1 :: r.2.1, r.2.2)
         else
           (-1, [rb.1], rb.2)) from rfl] at hb
    simp only at hb
    by_cases hfull : (vsiReadBytes (vsiSeek f (Int.ofNat off) Whence.fromStart).2 1 sz).1.length = sz
    · rw [if_pos hfull] at hb
      cases i with
      | zero =>
        simp only [List.getElem?_cons_zero, Option.some_inj] at hb hr
        subst hb; subst hr
        exact hbytes
      | succ i =>
        simp only [List.getElem?_cons_succ] at hb hr
        have := ih _ hfail i b rg hb hr
        rw [hdata] at this
        exact this
    · rw [if_neg hfull] at hb
      cases i with
      | zero =>
        simp only [List.getElem?_cons_zero, Option.some_inj] at hb hr
        subst hb; subst hr
        exact hbytes
      | succ i =>
        simp at hb

/-- C1: For every constructed handle, `ReadMultiRange(rangeCount,
buffers, offsets, sizes)` processes the ranges sequentially in index
order — on a failure-free host each written buffer holds exactly the
bytes obtained by a Seek to its range's offset followed by a Read of its
range's size — it stops and returns failure (-1) at the first sub-read
that does not fully satisfy its requested size, leaving the earlier
ranges already applied in full to their buffers, and it returns success
(0) if and only if every range was fully satisfied. -/
theorem claim_C1 (h : PythonVSIVirtualHandle) (o : PyObj) (ranges : List (Nat × Nat))
    (hh : h.open_file_obj = some o) :
    ((h.ReadMultiRange ranges).1 = 0 ∨ (h.ReadMultiRange ranges).1 = -1) ∧
    ((h.ReadMultiRange ranges).1 = 0 ↔
      (h.ReadMultiRange ranges).2.1.length = ranges.length ∧
      ∀ (i : Nat) (b : List Byte) (rg : Nat × Nat),
        (h.ReadMultiRange ranges).2.1[i]? = some b →
        ranges[i]? = some rg → b.length = rg.2) ∧
    ((h.ReadMultiRange ranges).1 = -1 →
      ∃ j, (h.ReadMultiRange ranges).2.1.length = j + 1 ∧ j < ranges.length ∧
        (∀ (i : Nat) (b : List Byte) (rg : Nat × Nat), i < j →
          (h.ReadMultiRange ranges).2.1[i]? = some b →
          ranges[i]? = some rg → b.length = rg.2) ∧
        ∃ (b : List Byte) (rg : Nat × Nat), (h.ReadMultiRange ranges).2.1[j]? = some b ∧
          ranges[j]? = some rg ∧ b.length < rg.2) ∧
    (o.file.failing = [] →
      ∀ (i : Nat) (b : List Byte) (rg : Nat × Nat),
        (h.ReadMultiRange ranges).2.1[i]? = some b →
        ranges[i]? = some rg → b = (o.file.data.drop rg.1).take rg.2) := by
  rcases h with ⟨obj⟩
  cases hh
  exact ⟨vsiReadMultiRange_code o.file ranges, vsiReadMultiRange_zero_iff o.file ranges,
    vsiReadMultiRange_fail o.file ranges,
    fun hf => vsiReadMultiRange_content o.file ranges hf⟩

/-- Witness for C1: a 6-byte file and three ranges whose third requests 5
bytes at offset 4, deliberately short. -/
theorem claim_C1_witness :
    ((PythonVSIVirtualHandle.ReadMultiRange ⟨some ⟨1, ⟨[10, 11, 12, 13, 14, 15], 0, 0, [], false⟩⟩⟩
        [(0, 2), (3, 2), (4, 5)]).1 = 0 ∨
     (PythonVSIVirtualHandle.ReadMultiRange ⟨some ⟨1, ⟨[10, 11, 12, 13, 14, 15], 0, 0, [], false⟩⟩⟩
        [(0, 2), (3, 2), (4, 5)]).1 = -1) ∧
    ((PythonVSIVirtualHandle.ReadMultiRange ⟨some ⟨1, ⟨[10, 11, 12, 13, 14, 15], 0, 0, [], false⟩⟩⟩
        [(0, 2), (3, 2), (4, 5)]).1 = 0 ↔
      (PythonVSIVirtualHandle.ReadMultiRange ⟨some ⟨1, ⟨[10, 11, 12, 13, 14, 15], 0, 0, [], false⟩⟩⟩
        [(0, 2), (3, 2), (4, 5)]).2.1.length = ([(0, 2), (3, 2), (4, 5)] : List (Nat × Nat)).length ∧
      ∀ (i : Nat) (b : List Byte) (rg : Nat × Nat),
        (PythonVSIVirtualHandle.ReadMultiRange ⟨some ⟨1, ⟨[10, 11, 12, 13, 14, 15], 0, 0, [], false⟩⟩⟩
          [(0, 2), (3, 2), (4, 5)]).2.1[i]? = some b →
        ([(0, 2), (3, 2), (4, 5)] : List (Nat × Nat))[i]? = some rg → b.length = rg.2) ∧
    ((PythonVSIVirtualHandle.ReadMultiRange ⟨some ⟨1, ⟨[10, 11, 12, 13, 14, 15], 0, 0, [], false⟩⟩⟩
        [(0, 2), (3, 2), (4, 5)]).1 = -1 →
      ∃ j, (PythonVSIVirtualHandle.ReadMultiRange ⟨some ⟨1, ⟨[10, 11, 12, 13, 14, 15], 0, 0, [], false⟩⟩⟩
          [(0, 2), (3, 2), (4, 5)]).2.1.length = j + 1 ∧
        j < ([(0, 2), (3, 2), (4, 5)] : List (Nat × Nat)).length ∧
        (∀ (i : Nat) (b : List Byte) (rg : Nat × Nat), i < j →
          (PythonVSIVirtualHandle.ReadMultiRange ⟨some ⟨1, ⟨[10, 11, 12, 13, 14, 15], 0, 0, [], false⟩⟩⟩
            [(0, 2), (3, 2), (4, 5)]).2.1[i]? = some b →
          ([(0, 2), (3, 2), (4, 5)] : List (Nat × Nat))[i]? = some rg → b.length = rg.2) ∧
        ∃ (b : List Byte) (rg : Nat × Nat),
          (PythonVSIVirtualHandle.ReadMultiRange ⟨some ⟨1, ⟨[10, 11, 12, 13, 14, 15], 0, 0, [], false⟩⟩⟩
            [(0, 2), (3, 2), (4, 5)]).2.1[j]? = some b ∧
          ([(0, 2), (3, 2), (4, 5)] : List (Nat × Nat))[j]? = some rg ∧ b.length < rg.2) ∧
    ((⟨[10, 11, 12, 13, 14, 15], 0, 0, [], false⟩ : HostFile).failing = [] →
      ∀ (i : Nat) (b : List Byte) (rg : Nat × Nat),
        (PythonVSIVirtualHandle.ReadMultiRange ⟨some ⟨1, ⟨[10, 11, 12, 13, 14, 15], 0, 0, [], false⟩⟩⟩
          [(0, 2), (3, 2), (4, 5)]).2.1[i]? = some b →
        ([(0, 2), (3, 2), (4, 5)] : List (Nat × Nat))[i]? = some rg →
        b = ((⟨[10, 11, 12, 13, 14, 15], 0, 0, [], false⟩ : HostFile).data.drop rg.1).take rg.2) :=
  claim_C1 ⟨some ⟨1, ⟨[10, 11, 12, 13, 14, 15], 0, 0, [], false⟩⟩⟩
    ⟨1, ⟨[10, 11, 12, 13, 14, 15], 0, 0, [], false⟩⟩ [(0, 2), (3, 2), (4, 5)] rfl

/-- C2: For every constructed handle whose host honours the initial tell
and the restoring seek, `Eof()` restores the cursor to its pre-call
position in all cases, including when the end-probe seek or tell itself
fails; and when the end-probe also succeeds, it returns nonzero exactly
when the current cursor position equals the end-of-file position. -/
theorem claim_C2 (h : PythonVSIVirtualHandle) (o : PyObj)
    (hh : h.open_file_obj = some o)
    (htell : o.file.callIdx ∉ o.file.failing)
    (hback1 : o.file.callIdx + 1 ∈ o.file.failing → o.file.callIdx + 2 ∉ o.file.failing)
    (hback2 : o.file.callIdx + 1 ∉ o.file.failing → o.file.callIdx + 3 ∉ o.file.failing) :
    (∃ o2, h.Eof.2.open_file_obj = some o2 ∧ o2.file.pos = o.file.pos) ∧
    (o.file.callIdx + 1 ∉ o.file.failing → o.file.callIdx + 2 ∉ o.file.failing →
      (h.Eof.1 ≠ 0 ↔ o.file.pos = o.file.data.length)) := by
  rcases h with ⟨obj⟩
  cases hh
  have hs := vsiEof_spec o.file htell hback1 hback2
  refine ⟨⟨_, rfl, hs.1⟩, ?_⟩
  intro ha hb
  have hv : (PythonVSIVirtualHandle.Eof ⟨some o⟩).1 = (vsiEof o.file).1 := rfl
  rw [hv, hs.2 ha hb]
  by_cases hpos : o.file.pos = o.file.data.length <;> simp [hpos]

/-- Witness for C2: a 2-byte file with the cursor at its end and an
injected failure of the end-probe seek (host call 1); the cursor is
restored by the later seek (host call 2). -/
theorem claim_C2_witness :
    (∃ o2, (PythonVSIVirtualHandle.Eof ⟨some ⟨1, ⟨[1, 2], 2, 0, [1], false⟩⟩⟩).2.open_file_obj =
        some o2 ∧ o2.file.pos = (⟨[1, 2], 2, 0, [1], false⟩ : HostFile).pos) ∧
    ((⟨[1, 2], 2, 0, [1], false⟩ : HostFile).callIdx + 1 ∉
        (⟨[1, 2], 2, 0, [1], false⟩ : HostFile).failing →
     (⟨[1, 2], 2, 0, [1], false⟩ : HostFile).callIdx + 2 ∉
        (⟨[1, 2], 2, 0, [1], false⟩ : HostFile).failing →
      ((PythonVSIVirtualHandle.Eof ⟨some ⟨1, ⟨[1, 2], 2, 0, [1], false⟩⟩⟩).1 ≠ 0 ↔
        (⟨[1, 2], 2, 0, [1], false⟩ : HostFile).pos =
          (⟨[1, 2], 2, 0, [1], false⟩ : HostFile).data.length)) :=
  claim_C2 ⟨some ⟨1, ⟨[1, 2], 2, 0, [1], false⟩⟩⟩ ⟨1, ⟨[1, 2], 2, 0, [1], false⟩⟩ rfl
    (by decide) (by decide) (by decide)
